import Mathlib

/- Shallow embedding of libblds-client (src/src/blds-client.cc, header
   src/include/blds-client.h). Bytes are modelled as Nat values; byte strings
   (QByteArray contents, UTF-8 images of QString values) as List Nat. All
   multi-byte integers on the wire are little-endian, as configured on the
   QDataStream in the constructor (SinglePrecision floats, LittleEndian). -/

namespace Blds

/-- UTF-8 bytes of an ASCII string literal (Char.toNat equals the UTF-8 byte
for ASCII characters; every protocol token of this client is ASCII). -/
def s2b (s : String) : List Nat := s.data.map Char.toNat

/-- Little-endian 4-byte image of a quint32 value, as QDataStream writes it
with byte order set to LittleEndian. -/
def le32 (n : Nat) : List Nat :=
  [n % 256, n / 256 % 256, n / 65536 % 256, n / 16777216 % 256]

/-- Value of a little-endian byte sequence. A short sequence is read as if
padded with zero bytes, matching a partial `read` into a zero-initialized
integer variable. -/
def leValue : List Nat → Nat
  | [] => 0
  | b :: bs => b + 256 * leValue bs

/-- Wrapping subtraction on quint32, modelling `size -= k` on a quint32. -/
def sub32 (a b : Nat) : Nat := (a + 4294967296 - b % 4294967296) % 4294967296

/-- Model of QIODevice::readLine on the socket buffer: returns the bytes up
to and including the first newline, or all buffered bytes when no newline is
buffered; the rest of the buffer is the second component. The result is empty
exactly when the buffer is empty. -/
def readLine : List Nat → List Nat × List Nat
  | [] => ([], [])
  | b :: bs =>
    if b = 10 then ([b], bs)
    else
      let r := readLine bs
      (b :: r.1, r.2)

/-- QVariant payload of a response, as built by the response handlers. The
srcRaw variant records the external datasource::deserialize collaborator
applied to the given parameter name and raw bytes (the collaborator itself is
outside this repository). -/
inductive Value
  | text (bytes : List Nat)
  | uint (n : Nat)
  | flt (pattern : List Nat)
  | boolv (b : Bool)
  | srcRaw (param : List Nat) (bytes : List Nat)
deriving DecidableEq

/-- Signals emitted by BldsClient while handling inbound messages. -/
inductive Event
  | sourceCreated (success : Bool) (msg : List Nat)
  | sourceDeleted (success : Bool) (msg : List Nat)
  | recordingStarted (success : Bool) (msg : List Nat)
  | recordingStopped (success : Bool) (msg : List Nat)
  | requestAllDataResponse (success : Bool) (msg : List Nat)
  | setResponse (param : List Nat) (success : Bool) (msg : List Nat)
  | getResponse (param : List Nat) (success : Bool) (data : Value)
  | setSourceResponse (param : List Nat) (success : Bool) (msg : List Nat)
  | getSourceResponse (param : List Nat) (success : Bool) (data : Value)
  | dataEv (bytes : List Nat)
  | error (msg : List Nat)
deriving DecidableEq

/-- BldsClient::parseSuccessAndStringMessage. Reads one boolean byte from the
stream (QDataStream sets the value to 0 when no byte is available), decrements
the running size, and on failure reads `size` further bytes as the message.
Returns (success, message bytes, bytes consumed from the buffer). -/
def parseSuccessAndStringMessage (sz : Nat) (buf : List Nat) :
    Bool × List Nat × Nat :=
  let success := buf.headD 0 != 0
  let c1 := (buf.take 1).length
  let sz1 := sub32 sz 1
  if success then (true, [], c1)
  else
    let msg := (buf.drop 1).take sz1
    (false, msg, c1 + msg.length)

/-- Per-name value decoding of BldsClient::handleGetResponse (the branch on
the parameter name after the success flag and name line are read). Returns
the QVariant put in the emitted signal and the bytes consumed. Reads into
numeric locals are zero-initialized, so a short read leaves high bytes zero;
the float pattern keeps its four raw bytes. -/
def decodeParam (param : List Nat) (sz : Nat) (buf : List Nat) : Value × Nat :=
  if param = s2b ("save-file") ∨ param = s2b ("save-directory") ∨
      param = s2b ("source-location") ∨ param = s2b ("start-time") then
    (Value.text (buf.take sz), (buf.take sz).length)
  else if param = s2b ("recording-length") ∨ param = s2b ("read-interval") then
    (Value.uint (leValue (buf.take 4)), (buf.take 4).length)
  else if param = s2b ("recording-position") then
    (Value.flt (buf.take 4 ++ List.replicate (4 - (buf.take 4).length) 0),
      (buf.take 4).length)
  else if param = s2b ("source-exists") ∨ param = s2b ("recording-exists") then
    (Value.boolv (buf.headD 0 != 0), (buf.take 1).length)
  else
    (Value.text (buf.take sz), (buf.take sz).length)

/-- BldsClient::handleSetResponse. The source subtracts param.size() (the
QString length of the decoded line, which equals its byte length for the
ASCII parameter names of this protocol) before chopping the newline. -/
def handleSetResponse (sz : Nat) (buf : List Nat) : List Event × Nat :=
  let success := buf.headD 0 != 0
  let c1 := (buf.take 1).length
  let sz1 := sub32 sz 1
  let buf1 := buf.drop 1
  let pline := (readLine buf1).1
  let rest := (readLine buf1).2
  let sz2 := sub32 sz1 pline.length
  let param := pline.dropLast
  let msg := rest.take sz2
  ([Event.setResponse param success msg], c1 + pline.length + msg.length)

/-- BldsClient::handleSetSourceResponse (same shape as handleSetResponse). -/
def handleSetSourceResponse (sz : Nat) (buf : List Nat) : List Event × Nat :=
  let success := buf.headD 0 != 0
  let c1 := (buf.take 1).length
  let sz1 := sub32 sz 1
  let buf1 := buf.drop 1
  let pline := (readLine buf1).1
  let rest := (readLine buf1).2
  let sz2 := sub32 sz1 pline.length
  let param := pline.dropLast
  let msg := rest.take sz2
  ([Event.setSourceResponse param success msg], c1 + pline.length + msg.length)

/-- BldsClient::handleGetResponse: success flag, parameter-name line, then the
per-name value decoding; the success flag is not consulted when choosing how
to decode the remaining bytes. -/
def handleGetResponse (sz : Nat) (buf : List Nat) : List Event × Nat :=
  let success := buf.headD 0 != 0
  let c1 := (buf.take 1).length
  let sz1 := sub32 sz 1
  let buf1 := buf.drop 1
  let pline := (readLine buf1).1
  let rest := (readLine buf1).2
  let sz2 := sub32 sz1 pline.length
  let param := pline.dropLast
  let dv := decodeParam param sz2 rest
  ([Event.getResponse param success dv.1], c1 + pline.length + dv.2)

/-- BldsClient::handleGetSourceResponse: success flag, parameter-name line,
then all `size` remaining bytes are handed to the external data-source codec
regardless of the success flag. -/
def handleGetSourceResponse (sz : Nat) (buf : List Nat) : List Event × Nat :=
  let success := buf.headD 0 != 0
  let c1 := (buf.take 1).length
  let sz1 := sub32 sz 1
  let buf1 := buf.drop 1
  let pline := (readLine buf1).1
  let rest := (readLine buf1).2
  let sz2 := sub32 sz1 pline.length
  let param := pline.dropLast
  let buffer := rest.take sz2
  ([Event.getSourceResponse param success (Value.srcRaw param buffer)],
    c1 + pline.length + buffer.length)

/-- BldsClient::handleDataMessage: the remaining bytes are handed to
DataFrame::deserialize (external); the event records the raw bytes. -/
def handleDataMessage (sz : Nat) (buf : List Nat) : List Event × Nat :=
  ([Event.dataEv (buf.take sz)], (buf.take sz).length)

/-- BldsClient::handleCreateSourceResponse. -/
def handleCreateSourceResponse (sz : Nat) (buf : List Nat) : List Event × Nat :=
  let r := parseSuccessAndStringMessage sz buf
  ([Event.sourceCreated r.1 r.2.1], r.2.2)

/-- BldsClient::handleDeleteSourceResponse. -/
def handleDeleteSourceResponse (sz : Nat) (buf : List Nat) : List Event × Nat :=
  let r := parseSuccessAndStringMessage sz buf
  ([Event.sourceDeleted r.1 r.2.1], r.2.2)

/-- BldsClient::handleStartRecordingResponse. -/
def handleStartRecordingResponse (sz : Nat) (buf : List Nat) : List Event × Nat :=
  let r := parseSuccessAndStringMessage sz buf
  ([Event.recordingStarted r.1 r.2.1], r.2.2)

/-- BldsClient::handleStopRecordingResponse. -/
def handleStopRecordingResponse (sz : Nat) (buf : List Nat) : List Event × Nat :=
  let r := parseSuccessAndStringMessage sz buf
  ([Event.recordingStopped r.1 r.2.1], r.2.2)

/-- BldsClient::handleRequestAllDataResponse. -/
def handleRequestAllDataResponse (sz : Nat) (buf : List Nat) : List Event × Nat :=
  let r := parseSuccessAndStringMessage sz buf
  ([Event.requestAllDataResponse r.1 r.2.1], r.2.2)

/-- BldsClient::handleMessage: reads the newline-terminated type tag (erroring
when the read yields zero bytes), subtracts its byte length from the running
size, chops the newline and dispatches. Returns the emitted events and the
number of bytes consumed from the buffer. -/
def handleMessage (sz : Nat) (buf : List Nat) : List Event × Nat :=
  let tline := (readLine buf).1
  let rest := (readLine buf).2
  if tline.length = 0 then
    ([Event.error (s2b ("Received malformed message from BLDS"))], 0)
  else
    let sz1 := sub32 sz tline.length
    let mtype := tline.dropLast
    let add : List Event × Nat → List Event × Nat :=
      fun r => (r.1, tline.length + r.2)
    if mtype = s2b ("source-created") then add (handleCreateSourceResponse sz1 rest)
    else if mtype = s2b ("source-deleted") then add (handleDeleteSourceResponse sz1 rest)
    else if mtype = s2b ("set") then add (handleSetResponse sz1 rest)
    else if mtype = s2b ("get") then add (handleGetResponse sz1 rest)
    else if mtype = s2b ("set-source") then add (handleSetSourceResponse sz1 rest)
    else if mtype = s2b ("get-source") then add (handleGetSourceResponse sz1 rest)
    else if mtype = s2b ("recording-started") then add (handleStartRecordingResponse sz1 rest)
    else if mtype = s2b ("recording-stopped") then add (handleStopRecordingResponse sz1 rest)
    else if mtype = s2b ("data") then add (handleDataMessage sz1 rest)
    else if mtype = s2b ("get-all-data") then add (handleRequestAllDataResponse sz1 rest)
    else if mtype = s2b ("error") then
      ([Event.error (rest.take sz1)], tline.length + (rest.take sz1).length)
    else
      ([Event.error (s2b ("Unknown message type received from BLDS: ") ++ rest.take sz1)],
        tline.length + (rest.take sz1).length)

/-- Loop body of BldsClient::handleReadyRead, with explicit fuel (the loop
consumes at least 4 bytes per iteration, so fuel one larger than the buffer
length is always sufficient). Each iteration peeks the 4-byte little-endian
size without consuming it, then compares bytesAvailable (which still counts
the 4 unread prefix bytes) against the signed value of size - sizeof(size);
only when that check passes are the prefix consumed and the message handled. -/
def readyReadLoop : Nat → List Nat → List Event × List Nat
  | 0, buf => ([], buf)
  | fuel + 1, buf =>
    if buf.length < 4 then ([], buf)
    else
      let size := leValue (buf.take 4)
      if (buf.length : Int) < (size : Int) - 4 then ([], buf)
      else
        let rest := buf.drop 4
        let r := handleMessage size rest
        let r2 := readyReadLoop fuel (rest.drop r.2)
        (r.1 ++ r2.1, r2.2)

/-- BldsClient::handleReadyRead on the current socket buffer: returns the
emitted events and the bytes left in the buffer. -/
def handleReadyRead (buf : List Nat) : List Event × List Nat :=
  readyReadLoop (buf.length + 1) buf

/-- QDataStream serialization of a (non-null) QByteArray with LittleEndian
byte order: a quint32 length prefix followed by the raw bytes. This is what
`m_stream << buffer` writes. -/
def writeByteArray (b : List Nat) : List Nat := le32 b.length ++ b

/-- QVariant::toByteArray as used by BldsClient::set for the text-valued
parameters; modelled for the text variant the callers pass (other variants
are not exercised by set's text branch). -/
def toByteArrayV : Value → List Nat
  | Value.text t => t
  | _ => []

/-- QVariant::toUInt as used by BldsClient::set for the uint-valued
parameters: a uint variant yields its value as quint32, a boolean 0 or 1,
other variants 0. -/
def toUIntV : Value → Nat
  | Value.uint n => n % 4294967296
  | Value.boolv b => if b then 1 else 0
  | _ => 0

/-- Value encoding inside BldsClient::set: save-file and save-directory are
appended as toByteArray text, recording-length and read-interval as the
4 bytes of the quint32 value (memcpy of the little-endian server platform),
and every other parameter name gets no payload at all. -/
def encodeParam (param : List Nat) (v : Value) : List Nat :=
  if param = s2b ("save-file") ∨ param = s2b ("save-directory") then
    toByteArrayV v
  else if param = s2b ("recording-length") ∨ param = s2b ("read-interval") then
    le32 (toUIntV v)
  else []

/-- The decode half of the Parameter Codec: the per-name branch of
handleGetResponse applied to exactly the payload bytes (running size equal to
the byte count). -/
def decodeValue (param : List Nat) (bytes : List Nat) : Value :=
  (decodeParam param bytes.length bytes).1

/-- Outbound commands of the Request Encoder with their arguments; float
arguments carry their 4-byte single-precision wire image, setSource carries
the bytes already produced by the external data-source codec. -/
inductive Command
  | createSource (ty loc : List Nat)
  | deleteSource
  | startRecording
  | stopRecording
  | requestAllData (req : Bool)
  | getData (start stop : List Nat)
  | getCmd (param : List Nat)
  | getSourceCmd (param : List Nat)
  | setCmd (param : List Nat) (v : Value)
  | setSourceCmd (param : List Nat) (serialized : List Nat)

/-- Bytes each command method writes to the transport (src lines 91-175):
most build a QByteArray and write it through the QDataStream (length prefix
then bytes); requestAllData and getData compute the prefix by hand and then
write the tag buffer and the trailing fields separately. -/
def wireBytes : Command → List Nat
  | Command.createSource ty loc =>
      writeByteArray (s2b ("create-source\n") ++ ty ++ [10] ++ loc)
  | Command.deleteSource => writeByteArray (s2b ("delete-source\n"))
  | Command.startRecording => writeByteArray (s2b ("start-recording\n"))
  | Command.stopRecording => writeByteArray (s2b ("stop-recording\n"))
  | Command.requestAllData req =>
      le32 ((s2b ("get-all-data\n")).length + 1) ++
        (s2b ("get-all-data\n") ++ [if req then 1 else 0])
  | Command.getData start stop =>
      le32 ((s2b ("get-data\n")).length + 2 * 4) ++
        (s2b ("get-data\n") ++ start ++ stop)
  | Command.getCmd p => writeByteArray (s2b ("get\n") ++ p ++ [10])
  | Command.getSourceCmd p => writeByteArray (s2b ("get-source\n") ++ p ++ [10])
  | Command.setCmd p v => writeByteArray (s2b ("set\n") ++ p ++ [10] ++ encodeParam p v)
  | Command.setSourceCmd p ser => writeByteArray (s2b ("set-source\n") ++ p ++ [10] ++ ser)

/-- Frame body of each command as the spec describes it: the type tag line
followed by the command's fields. -/
def specBody : Command → List Nat
  | Command.createSource ty loc => s2b ("create-source\n") ++ ty ++ [10] ++ loc
  | Command.deleteSource => s2b ("delete-source\n")
  | Command.startRecording => s2b ("start-recording\n")
  | Command.stopRecording => s2b ("stop-recording\n")
  | Command.requestAllData req => s2b ("get-all-data\n") ++ [if req then 1 else 0]
  | Command.getData start stop => s2b ("get-data\n") ++ start ++ stop
  | Command.getCmd p => s2b ("get\n") ++ p ++ [10]
  | Command.getSourceCmd p => s2b ("get-source\n") ++ p ++ [10]
  | Command.setCmd p v => s2b ("set\n") ++ p ++ [10] ++ encodeParam p v
  | Command.setSourceCmd p ser => s2b ("set-source\n") ++ p ++ [10] ++ ser

/-- Well-formedness of command arguments: float arguments are 4-byte
single-precision images. -/
def cmdWF : Command → Bool
  | Command.getData start stop => start.length == 4 && stop.length == 4
  | _ => true

/-- QAbstractSocket connection states relevant to the client (HostLookupState
and ConnectingState are both transitional "connecting" states; neither equals
ConnectedState). -/
inductive ConnState
  | Disconnected
  | Connecting
  | Connected
deriving DecidableEq

/-- BldsClient::isConnected: true exactly when the socket state is
ConnectedState. -/
def isConnectedState (s : ConnState) : Bool := s == ConnState.Connected

/-- Immediate effect of one call to BldsClient::connect. -/
structure ConnectOutcome where
  errorEmitted : Bool
  attemptIssued : Bool
  finalState : ConnState
deriving DecidableEq

/-- BldsClient::connect: when isConnected it emits an error and returns;
otherwise it wires the connected/error handlers and calls
QTcpSocket::connectToHost (a new transport connection attempt). The call
itself changes no connection state; transitions happen via transport
events. -/
def connectOp (s : ConnState) : ConnectOutcome :=
  if isConnectedState s then ⟨true, false, s⟩ else ⟨false, true, s⟩

/-- Data members of BldsClient that the client code ever writes after
construction, together with the address fields set in the constructor. -/
structure Client where
  m_hostname : String
  m_port : Nat
  connState : ConnState
  m_requestAllData : Bool

/-- BldsClient::BldsClient(hostname, port): stores the address fields; the
socket starts unconnected (m_requestAllData is only ever written before any
read). -/
def mkClient (h : String) (p : Nat) : Client :=
  ⟨h, p, ConnState.Disconnected, false⟩

/-- Operations on a constructed client: every public slot of BldsClient plus
the transport events that drive state transitions and inbound bytes. -/
inductive ClientOp
  | connectC
  | disconnectC
  | createSourceC (ty loc : List Nat)
  | deleteSourceC
  | startRecordingC
  | stopRecordingC
  | requestAllDataC (b : Bool)
  | getDataC (start stop : List Nat)
  | getC (p : List Nat)
  | getSourceC (p : List Nat)
  | setC (p : List Nat) (v : Value)
  | setSourceC (p bs : List Nat)
  | transportConnected
  | transportDisconnected
  | inboundBytes (bs : List Nat)

/-- Effect of each operation on the client's members: requestAllData stores
its flag (src line 120), transport events move the connection state; every
other operation only writes to the socket or emits signals and leaves all
members unchanged (in particular nothing ever reassigns m_hostname or
m_port after the constructor). -/
def applyOp (c : Client) : ClientOp → Client
  | ClientOp.requestAllDataC b => { c with m_requestAllData := b }
  | ClientOp.transportConnected => { c with connState := ConnState.Connected }
  | ClientOp.transportDisconnected => { c with connState := ConnState.Disconnected }
  | _ => c

/-- BldsClient::hostname. -/
def hostname (c : Client) : String := c.m_hostname

/-- BldsClient::port. -/
def port (c : Client) : Nat := c.m_port

/-- BldsClient::address: QString("%1:%2").arg(m_hostname).arg(m_port), i.e.
the hostname, a colon, and the decimal rendering of the port (exact for
hostnames that contain no %N place markers, which no hostname does). -/
def address (c : Client) : String := c.m_hostname ++ ":" ++ toString c.m_port

/-- A completed QNetworkReply as the status handlers see it: the value of the
HttpStatusCodeAttribute (0 when the attribute is invalid) and the raw body
bytes. -/
structure HttpReply where
  statusCode : Nat
  body : List Nat

/-- BldsClient::handleSourceStatusReply: emits sourceStatus with the flag
comparing the HTTP status attribute against 200 and the body handed to the
external JSON parser (QJsonDocument::fromJson(...).object(), abstracted as
the parameter). -/
def handleSourceStatusReply {J : Type} (fromJson : List Nat → J)
    (r : HttpReply) : Bool × J :=
  ((r.statusCode == 200), fromJson r.body)

/-- Decoding the little-endian image of a quint32 recovers the value modulo
2^32. -/
theorem leValue_le32 (n : Nat) : leValue (le32 n) = n % 4294967296 := by
  show n % 256 + 256 * (n / 256 % 256 + 256 *
      (n / 65536 % 256 + 256 * (n / 16777216 % 256 + 256 * 0))) = n % 4294967296
  omega

/-- The first four bytes of a length-prefixed write are the prefix. -/
theorem take4_le32_append (n : Nat) (l : List Nat) :
    (le32 n ++ l).take 4 = le32 n := rfl

/-- Taking four bytes of a 4-byte little-endian image is the identity. -/
theorem take4_le32 (n : Nat) : (le32 n).take 4 = le32 n := rfl

/-- A QDataStream QByteArray write is the little-endian length prefix
followed by the bytes, and peeking its prefix recovers the length. -/
theorem writeByteArray_framing (b : List Nat) (h : b.length < 4294967296) :
    writeByteArray b = le32 b.length ++ b ∧
      leValue ((writeByteArray b).take 4) = b.length := by
  refine ⟨rfl, ?_⟩
  show leValue ((le32 b.length ++ b).take 4) = b.length
  rw [take4_le32_append, leValue_le32]
  exact Nat.mod_eq_of_lt h

/-- A single client operation never changes the address fields. -/
theorem applyOp_preserves (c : Client) (op : ClientOp) :
    (applyOp c op).m_hostname = c.m_hostname ∧
      (applyOp c op).m_port = c.m_port := by
  cases op <;> exact ⟨rfl, rfl⟩

/-- A sequence of client operations never changes the address fields. -/
theorem foldl_applyOp_preserves (ops : List ClientOp) : ∀ c : Client,
    (ops.foldl applyOp c).m_hostname = c.m_hostname ∧
      (ops.foldl applyOp c).m_port = c.m_port := by
  induction ops with
  | nil => intro c; exact ⟨rfl, rfl⟩
  | cons op rest ih =>
      intro c
      have h1 := applyOp_preserves c op
      have h2 := ih (applyOp c op)
      exact ⟨h2.1.trans h1.1, h2.2.trans h1.2⟩

/-- C1: the Frame Reader is not chunking-invariant and does consume from the
buffer while fewer than `size` payload bytes are buffered. handleReadyRead
proceeds whenever bytesAvailable (still counting the 4 unread prefix bytes)
is at least size - 4, so a frame declaring 16 payload bytes is consumed and
dispatched as soon as 8 payload bytes have arrived: the 12-byte chunk below
yields a truncated error event, while the unsplit 20-byte frame yields the
full one — contradicting both the claim and the code's own comment that it
checks whether the full message is available. -/
theorem frameReader_premature_consume :
    handleReadyRead (le32 16 ++ s2b ("error\n") ++ s2b ("ab")) =
        ([Event.error (s2b ("ab"))], []) ∧
      handleReadyRead (le32 16 ++ s2b ("error\n") ++ s2b ("abcdefghij")) =
        ([Event.error (s2b ("abcdefghij"))], []) ∧
      (le32 16 ++ s2b ("error\n") ++ s2b ("ab")).length < 4 + 16 ∧
      leValue ((le32 16 ++ s2b ("error\n") ++ s2b ("ab")).take 4) = 16 := by
  decide

/-- C2: a frame whose body is one byte longer than its declared size is
handled silently: the well-formed `set` response with the stray byte 0x5A
appended produces the ordinary successful setResponse event, no framing
error of any kind is emitted, and the stray byte stays in the buffer to be
misread as the next frame's length prefix. -/
theorem dispatcher_silent_on_excess_byte :
    handleReadyRead (le32 15 ++ s2b ("set\n") ++ [1] ++ s2b ("save-file\n") ++ [90]) =
      ([Event.setResponse (s2b ("save-file")) true []], [90]) := by
  decide

/-- C3: on a `get` response whose success flag is false for the known
parameter read-interval, the dispatcher still applies the per-name value
decoding — the error message bytes of "fail" are decoded as the
little-endian uint32 1818845542 instead of being delivered as UTF-8 text —
and on a failed `get-source` response the remaining bytes are still handed
to the external source codec. -/
theorem getResponse_failure_decodes_value :
    handleMessage 23 (s2b ("get\n") ++ [0] ++ s2b ("read-interval\n") ++ s2b ("fail")) =
        ([Event.getResponse (s2b ("read-interval")) false (Value.uint 1818845542)], 23) ∧
      handleMessage 26 (s2b ("get-source\n") ++ [0] ++ s2b ("gain\n") ++ s2b ("no source")) =
        ([Event.getSourceResponse (s2b ("gain")) false
            (Value.srcRaw (s2b ("gain")) (s2b ("no source")))], 26) := by
  decide

/-- C4: every command writes a 4-byte little-endian length prefix followed by
the frame body (type tag line plus the command's fields), and the prefix
value equals the byte length of that body, excluding the prefix itself. -/
theorem requestEncoder_framing (c : Command) (hwf : cmdWF c = true)
    (hlen : (specBody c).length < 4294967296) :
    wireBytes c = le32 ((specBody c).length) ++ specBody c ∧
      leValue ((wireBytes c).take 4) = (specBody c).length := by
  cases c with
  | createSource ty loc => exact writeByteArray_framing _ hlen
  | deleteSource => exact writeByteArray_framing _ hlen
  | startRecording => exact writeByteArray_framing _ hlen
  | stopRecording => exact writeByteArray_framing _ hlen
  | requestAllData req => cases req <;> decide
  | getData start stop =>
      simp only [cmdWF, Bool.and_eq_true, beq_iff_eq] at hwf
      have h9 : (s2b ("get-data\n")).length = 9 := by decide
      have hlen17 : (specBody (Command.getData start stop)).length = 17 := by
        simp only [specBody, List.length_append, h9, hwf.1, hwf.2]
      refine ⟨?_, ?_⟩
      · show le32 ((s2b ("get-data\n")).length + 2 * 4) ++
            (s2b ("get-data\n") ++ start ++ stop) = _
        rw [h9, hlen17]
        exact rfl
      · rw [hlen17]
        show leValue ((le32 ((s2b ("get-data\n")).length + 2 * 4) ++
            (s2b ("get-data\n") ++ start ++ stop)).take 4) = 17
        rw [take4_le32_append, leValue_le32, h9]
  | getCmd p => exact writeByteArray_framing _ hlen
  | getSourceCmd p => exact writeByteArray_framing _ hlen
  | setCmd p v => exact writeByteArray_framing _ hlen
  | setSourceCmd p ser => exact writeByteArray_framing _ hlen

/-- Witness for requestEncoder_framing at the concrete getData command with
the single-precision images of 1.0f and 2.0f. -/
theorem requestEncoder_framing_witness :
    wireBytes (Command.getData [0, 0, 128, 63] [0, 0, 0, 64]) =
        le32 ((specBody (Command.getData [0, 0, 128, 63] [0, 0, 0, 64])).length) ++
          specBody (Command.getData [0, 0, 128, 63] [0, 0, 0, 64]) ∧
      leValue ((wireBytes (Command.getData [0, 0, 128, 63] [0, 0, 0, 64])).take 4) =
        (specBody (Command.getData [0, 0, 128, 63] [0, 0, 0, 64])).length :=
  requestEncoder_framing (Command.getData [0, 0, 128, 63] [0, 0, 0, 64])
    (by decide) (by decide)

/-- C5 counterexample: for the known server-level parameter source-exists
(boolean wire type), decoding the bytes produced by encoding `true` does not
yield `true` — set() appends no payload for read-only parameter names, so
the decoder reads the boolean back as `false`. -/
theorem roundtrip_source_exists_fails :
    ¬ decodeValue (s2b ("source-exists"))
        (encodeParam (s2b ("source-exists")) (Value.boolv true)) =
      Value.boolv true := by
  decide

/-- C5 amended: the round trip holds for the writable parameters: save-file
and save-directory as text, recording-length and read-interval as
fixed-width little-endian uint32 for values in range. -/
theorem roundtrip_writable_params (t u : List Nat) (n m : Nat)
    (hn : n < 4294967296) (hm : m < 4294967296) :
    decodeValue (s2b ("save-file"))
        (encodeParam (s2b ("save-file")) (Value.text t)) = Value.text t ∧
      decodeValue (s2b ("save-directory"))
        (encodeParam (s2b ("save-directory")) (Value.text u)) = Value.text u ∧
      decodeValue (s2b ("recording-length"))
        (encodeParam (s2b ("recording-length")) (Value.uint n)) = Value.uint n ∧
      decodeValue (s2b ("read-interval"))
        (encodeParam (s2b ("read-interval")) (Value.uint m)) = Value.uint m := by
  refine ⟨?_, ?_, ?_, ?_⟩
  · show decodeValue (s2b ("save-file")) (toByteArrayV (Value.text t)) = Value.text t
    show (decodeParam (s2b ("save-file")) t.length t).1 = Value.text t
    rw [decodeParam, if_pos (by decide)]
    simp [List.take_length]
  · show (decodeParam (s2b ("save-directory")) u.length u).1 = Value.text u
    rw [decodeParam, if_pos (by decide)]
    simp [List.take_length]
  · show (decodeParam (s2b ("recording-length")) (le32 (n % 4294967296)).length
        (le32 (n % 4294967296))).1 = Value.uint n
    rw [decodeParam, if_neg (by decide), if_pos (by decide)]
    show Value.uint (leValue ((le32 (n % 4294967296)).take 4)) = Value.uint n
    rw [take4_le32, leValue_le32]
    have hmm : n % 4294967296 % 4294967296 = n := by omega
    rw [hmm]
  · show (decodeParam (s2b ("read-interval")) (le32 (m % 4294967296)).length
        (le32 (m % 4294967296))).1 = Value.uint m
    rw [decodeParam, if_neg (by decide), if_pos (by decide)]
    show Value.uint (leValue ((le32 (m % 4294967296)).take 4)) = Value.uint m
    rw [take4_le32, leValue_le32]
    have hmm : m % 4294967296 % 4294967296 = m := by omega
    rw [hmm]

/-- Witness for roundtrip_writable_params at concrete values. -/
theorem roundtrip_writable_params_witness :
    decodeValue (s2b ("save-file"))
        (encodeParam (s2b ("save-file")) (Value.text [104, 105])) =
          Value.text [104, 105] ∧
      decodeValue (s2b ("save-directory"))
        (encodeParam (s2b ("save-directory")) (Value.text [47, 116, 109, 112])) =
          Value.text [47, 116, 109, 112] ∧
      decodeValue (s2b ("recording-length"))
        (encodeParam (s2b ("recording-length")) (Value.uint 100)) = Value.uint 100 ∧
      decodeValue (s2b ("read-interval"))
        (encodeParam (s2b ("read-interval")) (Value.uint 10)) = Value.uint 10 :=
  roundtrip_writable_params [104, 105] [47, 116, 109, 112] 100 10
    (by decide) (by decide)

/-- C6 counterexample: with the connection state Connecting, connect does not
fail — it emits no error and issues a new transport connection attempt,
because the guard only tests isConnected (state == ConnectedState). -/
theorem connect_while_connecting_attempts :
    (connectOp ConnState.Connecting).attemptIssued = true ∧
      (connectOp ConnState.Connecting).errorEmitted = false := by
  decide

/-- C6 amended: connect fails immediately (reports an error, issues no
transport attempt, leaves the state unchanged) exactly when the state is
Connected; in the Connecting state it proceeds and issues a new connection
attempt. -/
theorem connect_guard_connected_only :
    (connectOp ConnState.Connected).errorEmitted = true ∧
      (connectOp ConnState.Connected).attemptIssued = false ∧
      (connectOp ConnState.Connected).finalState = ConnState.Connected ∧
      (connectOp ConnState.Connecting).attemptIssued = true ∧
      (connectOp ConnState.Disconnected).attemptIssued = true := by
  decide

/-- C8: the sourceStatus event's exists flag is true exactly when the
completed reply's HTTP status code is 200, and the event carries the reply
body handed to the JSON parser. -/
theorem sourceStatus_exists_iff_200 {J : Type} (fromJson : List Nat → J)
    (r : HttpReply) :
    ((handleSourceStatusReply fromJson r).1 = true ↔ r.statusCode = 200) ∧
      (handleSourceStatusReply fromJson r).2 = fromJson r.body := by
  refine ⟨?_, rfl⟩
  show ((r.statusCode == 200) = true ↔ r.statusCode = 200)
  exact beq_iff_eq

/-- C9: after any sequence of client operations, hostname() and port()
still return the constructor arguments and address() is the hostname, a
colon, and the decimal port. -/
theorem address_immutable (h : String) (p : Nat) (ops : List ClientOp) :
    hostname (ops.foldl applyOp (mkClient h p)) = h ∧
      port (ops.foldl applyOp (mkClient h p)) = p ∧
      address (ops.foldl applyOp (mkClient h p)) = h ++ ":" ++ toString p := by
  have hp := foldl_applyOp_preserves ops (mkClient h p)
  refine ⟨hp.1.trans rfl, hp.2.trans rfl, ?_⟩
  show (ops.foldl applyOp (mkClient h p)).m_hostname ++ ":" ++
      toString (ops.foldl applyOp (mkClient h p)).m_port = h ++ ":" ++ toString p
  rw [hp.1, hp.2]
  exact rfl

/-- C10: when the type-tag read yields zero bytes, handleMessage emits
exactly one generic error event with the malformed-message text and consumes
none of the declared payload bytes. -/
theorem malformed_message_single_error (sz : Nat) (buf : List Nat)
    (h : (readLine buf).1 = []) :
    handleMessage sz buf =
      ([Event.error (s2b ("Received malformed message from BLDS"))], 0) := by
  simp only [handleMessage, h, List.length_nil, if_pos]

/-- Witness for malformed_message_single_error on the empty buffer (the only
buffer on which readLine yields zero bytes). -/
theorem malformed_message_single_error_witness :
    handleMessage 9 [] =
      ([Event.error (s2b ("Received malformed message from BLDS"))], 0) :=
  malformed_message_single_error 9 [] rfl

end Blds
